import Mathlib

/-!
# Shallow embedding of `rtpreceiver.go` (package webrtc)

The file models the `RTPReceiver` lifecycle: construction
(`NewRTPReceiver`), activation (`Receive`), the stream-handle accessor
(`Track`), the two read paths (`Read`, `readRTP`) and teardown (`Stop`).

Modelling decisions:
* The two one-shot channels `closed` and `received` are booleans
  (`true` = the channel has been closed, i.e. the signal has fired).
* Go methods mutate the receiver behind a lock; here each operation is a
  pure function from the receiver state to the new state plus its return
  value.  All operations run under the receiver's lock in the source, so
  a call is one atomic step ("reachable" states are the states between
  calls).
* External collaborators (DTLS transport, SRTP/SRTCP sessions, read
  streams, the lossy wrapper) are records of observable behaviour: a
  read function and a close result.  Their errors are opaque values.
* `select` over the two fired channels in `Read`/`readRTP` is
  nondeterministic in Go when both are ready; the model takes the choice
  as an explicit argument (`SelectChoice`).
* Calling a method through a `nil` pointer (a reader that was never
  created) is the distinguished outcome `nilDeref` / `panicked`.
* Pointer identity (the `*RTPReceiver` back-reference stored in the
  `Track`) is modelled by a numeric `id` on the receiver.
-/

namespace Webrtc

/-- Media kind of a receiver (`RTPCodecType` in the source). -/
inductive RTPCodecType where
  | audio
  | video
deriving DecidableEq, Repr

/-- The Go `error` values that can appear in `rtpreceiver.go`: the two
messages built there with `fmt.Errorf`, the constructor error, and
opaque errors surfaced by external collaborators. -/
inductive GoError where
  | transportNil            -- "DTLSTransport must not be nil"
  | receiveAlreadyCalled    -- "Receive has already been called"
  | senderStopped           -- "RTPSender has been stopped"
  | collabErr (tag : Nat)   -- an error produced by a collaborator
deriving DecidableEq, Repr

/-- A secured read stream as returned by `OpenReadStream`: its
observable behaviour is a read function (buffer ↦ byte count and error)
and the result its close would report. -/
structure ReadStream where
  read : List Nat → Nat × Option GoError
  closeErr : Option GoError

/-- Modelled from the spec: `lossyReadCloser` is code of this repository
that is not under `src/` (only its caller `rtpreceiver.go` is).  Per the
spec it wraps a raw secured read stream and exposes a blocking byte-read
and a close; the model keeps exactly that observable behaviour. -/
structure lossyReadCloser where
  read : List Nat → Nat × Option GoError
  closeErr : Option GoError

/-- Modelled from the spec: `newLossyReadCloser` wraps an opened read
stream in the lossy wrapper. -/
def newLossyReadCloser (s : ReadStream) : lossyReadCloser :=
  { read := s.read, closeErr := s.closeErr }

/-- An SRTP/SRTCP session: can open a read stream for an SSRC, or fail. -/
structure SRTPSession where
  OpenReadStream : Nat → Except GoError ReadStream

/-- The DTLS transport collaborator: yields the media (SRTP) and control
(SRTCP) sessions, each possibly failing. -/
structure DTLSTransport where
  getSRTPSession : Except GoError SRTPSession
  getSRTCPSession : Except GoError SRTPSession

/-- The stream handle (`Track` struct): kind, SSRC and a back-reference
to the receiver (modelled by the receiver's identity). -/
structure Track where
  kind : RTPCodecType
  ssrc : Nat
  receiver : Nat
deriving DecidableEq, Repr

/-- `RTPDecodingParameters`: the selected encoding's SSRC. -/
structure RTPDecodingParameters where
  SSRC : Nat
deriving DecidableEq, Repr

/-- `RTPReceiveParameters` as used by `Receive`. -/
structure RTPReceiveParameters where
  encodings : RTPDecodingParameters
deriving DecidableEq, Repr

/-- The `RTPReceiver` state.  `closed` and `received` are the two
one-shot channels (`true` once closed); `id` stands for the pointer
identity of the receiver. -/
structure RTPReceiver where
  id : Nat
  kind : RTPCodecType
  transport : DTLSTransport
  track : Option Track
  closed : Bool
  received : Bool
  rtpReadStream : Option lossyReadCloser
  rtcpReadStream : Option lossyReadCloser

/-- `NewRTPReceiver`: fails if the transport is nil, otherwise returns a
receiver with both gates open and no track or readers. -/
def NewRTPReceiver (id : Nat) (kind : RTPCodecType)
    (transport : Option DTLSTransport) : Except GoError RTPReceiver :=
  match transport with
  | none => .error .transportNil
  | some t =>
      .ok { id := id, kind := kind, transport := t, track := none,
            closed := false, received := false,
            rtpReadStream := none, rtcpReadStream := none }

/-- `Track()`: returns the current stream handle under the shared lock. -/
def RTPReceiver.Track (r : RTPReceiver) : Option Webrtc.Track :=
  r.track

/-- `Receive(parameters)`: under the lock, fail if `received` is already
closed; otherwise close `received`, set the track, then acquire the SRTP
session, open its read stream, acquire the SRTCP session, open its read
stream — returning the collaborator's error at the first failure — and
finally store both lossy readers.  Returns the new state and the Go
return value (`none` = success). -/
def RTPReceiver.Receive (r : RTPReceiver) (parameters : RTPReceiveParameters) :
    RTPReceiver × Option GoError :=
  if r.received then
    (r, some .receiveAlreadyCalled)
  else
    let r1 : RTPReceiver :=
      { r with received := true,
               track := some { kind := r.kind,
                               ssrc := parameters.encodings.SSRC,
                               receiver := r.id } }
    match r.transport.getSRTPSession with
    | .error err => (r1, some err)
    | .ok srtpSession =>
        match srtpSession.OpenReadStream parameters.encodings.SSRC with
        | .error err => (r1, some err)
        | .ok srtpReadStream =>
            match r.transport.getSRTCPSession with
            | .error err => (r1, some err)
            | .ok srtcpSession =>
                match srtcpSession.OpenReadStream parameters.encodings.SSRC with
                | .error err => (r1, some err)
                | .ok srtcpReadStream =>
                    ({ r1 with
                        rtpReadStream := some (newLossyReadCloser srtpReadStream),
                        rtcpReadStream := some (newLossyReadCloser srtcpReadStream) },
                     none)

/-- Which `case` a Go `select` takes when both channels are ready. -/
inductive SelectChoice where
  | closedFirst
  | receivedFirst
deriving DecidableEq, Repr

/-- Outcome of a read call: the call blocks (neither channel closed),
panics on a nil reader, or returns `(n, err)`. -/
inductive ReadOutcome where
  | blocked
  | nilDeref
  | result (n : Nat) (err : Option GoError)
deriving DecidableEq, Repr

/-- Delegating a read to an optional lossy reader (a nil pointer in Go
dereferences and panics). -/
def delegateRead (reader : Option lossyReadCloser) (b : List Nat) : ReadOutcome :=
  match reader with
  | none => .nilDeref
  | some s => .result (s.read b).1 (s.read b).2

/-- `Read(b)`: `select` over `closed` (return `0` and the stopped error)
and `received` (delegate to `rtcpReadStream`); blocks if neither channel
is closed; `choice` resolves the race when both are. -/
def RTPReceiver.Read (r : RTPReceiver) (b : List Nat) (choice : SelectChoice) :
    ReadOutcome :=
  if r.closed then
    if r.received then
      match choice with
      | .closedFirst => .result 0 (some .senderStopped)
      | .receivedFirst => delegateRead r.rtcpReadStream b
    else .result 0 (some .senderStopped)
  else if r.received then delegateRead r.rtcpReadStream b
  else .blocked

/-- `readRTP(b)` (called only by the track): same gate as `Read` but
delegates to `rtpReadStream`. -/
def RTPReceiver.readRTP (r : RTPReceiver) (b : List Nat) (choice : SelectChoice) :
    ReadOutcome :=
  if r.closed then
    if r.received then
      match choice with
      | .closedFirst => .result 0 (some .senderStopped)
      | .receivedFirst => delegateRead r.rtpReadStream b
    else .result 0 (some .senderStopped)
  else if r.received then delegateRead r.rtpReadStream b
  else .blocked

/-- Which reader `Stop` called `close()` on, in call order. -/
inductive CloseCall where
  | rtcp
  | rtp
deriving DecidableEq, Repr

/-- `Stop`'s way of finishing: a Go `return err` (`ret`), or a panic
from closing through a nil reader pointer. -/
inductive StopResult where
  | ret (err : Option GoError)
  | panicked
deriving DecidableEq, Repr

/-- `Stop()`: under the lock, return nil at once if `closed` is already
closed; otherwise, if `received` is closed, close the RTCP reader and
return its error on failure, then close the RTP reader and return its
error on failure; finally close `closed` and return nil.  Besides the
new state and result, the model records which close calls were made. -/
def RTPReceiver.Stop (r : RTPReceiver) : RTPReceiver × StopResult × List CloseCall :=
  if r.closed then
    (r, .ret none, [])
  else if r.received then
    match r.rtcpReadStream with
    | none => (r, .panicked, [])
    | some rtcpStream =>
        match rtcpStream.closeErr with
        | some err => (r, .ret (some err), [.rtcp])
        | none =>
            match r.rtpReadStream with
            | none => (r, .panicked, [.rtcp])
            | some rtpStream =>
                match rtpStream.closeErr with
                | some err => (r, .ret (some err), [.rtcp, .rtp])
                | none => ({ r with closed := true }, .ret none, [.rtcp, .rtp])
  else
    ({ r with closed := true }, .ret none, [])

/-- States reachable through the public API from a freshly constructed
receiver (`Read`/`readRTP`/`Track` do not change the state). -/
inductive Reachable : RTPReceiver → Prop where
  | init : ∀ (id : Nat) (kind : RTPCodecType) (t : DTLSTransport) (r : RTPReceiver),
      NewRTPReceiver id kind (some t) = .ok r → Reachable r
  | recv : ∀ (r : RTPReceiver) (p : RTPReceiveParameters),
      Reachable r → Reachable (r.Receive p).1
  | stop : ∀ (r : RTPReceiver), Reachable r → Reachable (r.Stop).1

/-! ## Concrete fixtures -/

/-- A well-behaved read stream: reads the whole buffer, closes cleanly. -/
def streamOK : ReadStream :=
  { read := fun b => (b.length, none), closeErr := none }

/-- A stream whose reads fail with a collaborator error (tag 3). -/
def streamErrRead : ReadStream :=
  { read := fun _ => (0, some (.collabErr 3)), closeErr := none }

/-- A stream whose close fails with a collaborator error (tag 5). -/
def streamCloseFail : ReadStream :=
  { read := fun b => (b.length, none), closeErr := some (.collabErr 5) }

/-- A session that always opens `streamOK`. -/
def sessionOK : SRTPSession :=
  { OpenReadStream := fun _ => .ok streamOK }

/-- A transport on which every session and stream operation succeeds. -/
def tOK : DTLSTransport :=
  { getSRTPSession := .ok sessionOK, getSRTCPSession := .ok sessionOK }

/-- A transport whose session acquisition fails (tag 1). -/
def tNoSession : DTLSTransport :=
  { getSRTPSession := .error (.collabErr 1),
    getSRTCPSession := .error (.collabErr 1) }

/-- A transport whose streams read successfully but whose reads error:
both opened streams are `streamErrRead`. -/
def tErrRead : DTLSTransport :=
  { getSRTPSession := .ok { OpenReadStream := fun _ => .ok streamErrRead },
    getSRTCPSession := .ok { OpenReadStream := fun _ => .ok streamErrRead } }

/-- A transport whose SRTCP (control) stream fails to close. -/
def tCloseFail : DTLSTransport :=
  { getSRTPSession := .ok sessionOK,
    getSRTCPSession := .ok { OpenReadStream := fun _ => .ok streamCloseFail } }

/-- A fresh receiver (id 0, audio) over a given transport, as
`NewRTPReceiver` constructs it. -/
def rInit (t : DTLSTransport) : RTPReceiver :=
  { id := 0, kind := .audio, transport := t, track := none,
    closed := false, received := false,
    rtpReadStream := none, rtcpReadStream := none }

/-- Receive parameters carrying SSRC 12345. -/
def pEx : RTPReceiveParameters := { encodings := { SSRC := 12345 } }

/-- A receiver successfully activated over `tOK`. -/
def rActOK : RTPReceiver := ((rInit tOK).Receive pEx).1

/-- A receiver successfully activated over `tErrRead` (its readers fail
to read but close cleanly). -/
def rActErr : RTPReceiver := ((rInit tErrRead).Receive pEx).1

/-- A receiver successfully activated over `tCloseFail` (its control
reader fails to close). -/
def rCF : RTPReceiver := ((rInit tCloseFail).Receive pEx).1

/-! ## Helper lemmas -/

/-- Every `Receive` call leaves the `received` gate closed, whatever its
outcome. -/
theorem Receive_received (r : RTPReceiver) (p : RTPReceiveParameters) :
    (r.Receive p).1.received = true := by
  by_cases h : r.received
  · simp [RTPReceiver.Receive, h]
  · simp only [RTPReceiver.Receive, h, Bool.false_eq_true, if_false]
    split
    · rfl
    · split
      · rfl
      · split
        · rfl
        · split <;> rfl

/-- `Receive` on a receiver whose gate is closed fails at once, leaving
the state untouched. -/
theorem Receive_of_received (r : RTPReceiver) (p : RTPReceiveParameters)
    (h : r.received = true) :
    r.Receive p = (r, some .receiveAlreadyCalled) := by
  unfold RTPReceiver.Receive
  simp [h]

/-- `Stop` never changes any field other than `closed`. -/
theorem Stop_fields (r : RTPReceiver) :
    (r.Stop).1.id = r.id ∧ (r.Stop).1.kind = r.kind ∧
    (r.Stop).1.track = r.track ∧ (r.Stop).1.received = r.received ∧
    (r.Stop).1.rtpReadStream = r.rtpReadStream ∧
    (r.Stop).1.rtcpReadStream = r.rtcpReadStream := by
  unfold RTPReceiver.Stop
  split
  · simp
  · split
    · split
      · simp
      · split
        · simp
        · split
          · simp
          · split <;> simp
    · simp

/-- When `Stop` returns success, the `closed` gate is closed in the
resulting state. -/
theorem Stop_success_closed (r : RTPReceiver) (h : (r.Stop).2.1 = .ret none) :
    (r.Stop).1.closed = true := by
  unfold RTPReceiver.Stop at *
  split at h
  · simp_all
  · split at h
    · split at h
      · simp_all
      · split at h
        · simp_all
        · split at h
          · simp_all
          · split at h <;> simp_all
    · simp_all

/-- `Stop` on a receiver whose `closed` gate is already closed is a
no-op returning success. -/
theorem Stop_of_closed (r : RTPReceiver) (h : r.closed = true) :
    r.Stop = (r, .ret none, []) := by
  unfold RTPReceiver.Stop
  simp [h]

/-- A delegated read never yields the `blocked` outcome: with a reader
it returns the reader's result, without one it panics. -/
theorem delegateRead_ne_blocked (o : Option lossyReadCloser) (b : List Nat) :
    delegateRead o b ≠ .blocked := by
  cases o <;> simp [delegateRead]

/-- A successful activation from a non-activated state leaves the track
and both readers present. -/
theorem Receive_ok_all_present (r : RTPReceiver) (p : RTPReceiveParameters)
    (h1 : r.received = false) (h2 : (r.Receive p).2 = none) :
    (r.Receive p).1.track.isSome = true ∧
    (r.Receive p).1.rtpReadStream.isSome = true ∧
    (r.Receive p).1.rtcpReadStream.isSome = true := by
  revert h2
  simp only [RTPReceiver.Receive, h1, Bool.false_eq_true, if_false]
  split
  · intro h2; simp at h2
  · split
    · intro h2; simp at h2
    · split
      · intro h2; simp at h2
      · split
        · intro h2; simp at h2
        · intro _; exact ⟨rfl, rfl, rfl⟩

/-! ## Claim theorems -/

/-- C1: activation is strictly one-shot: after any `Receive` call on any
receiver — whether that call succeeded or failed — every later `Receive`
call fails with the `AlreadyActivated`-class error ("Receive has already
been called") and leaves the state unchanged. -/
theorem receive_one_shot (r : RTPReceiver) (p p' : RTPReceiveParameters) :
    ((r.Receive p).1).Receive p' = ((r.Receive p).1, some .receiveAlreadyCalled) :=
  Receive_of_received (r.Receive p).1 p' (Receive_received r p)

/-- C2: every `Receive` call closes the activation gate (`received`)
before doing its remaining work, so whatever the call's outcome —
session acquisition or stream opening may have failed — the gate is
closed afterwards and the receiver is permanently non-activatable. -/
theorem receive_gate_closed_forever (r : RTPReceiver) (p : RTPReceiveParameters) :
    (r.Receive p).1.received = true ∧
    ∀ p', (((r.Receive p).1).Receive p').2 = some .receiveAlreadyCalled := by
  refine ⟨Receive_received r p, fun p' => ?_⟩
  rw [Receive_of_received (r.Receive p).1 p' (Receive_received r p)]

/-- C6: teardown is idempotent after success: once a `Stop` call has
returned success, a later `Stop` call returns success, closes no reader,
and changes no field. -/
theorem stop_idempotent (r : RTPReceiver) (h : (r.Stop).2.1 = .ret none) :
    ((r.Stop).1).Stop = ((r.Stop).1, .ret none, []) :=
  Stop_of_closed (r.Stop).1 (Stop_success_closed r h)

/-- Witness for C6 at a concrete fresh receiver. -/
theorem stop_idempotent_witness :
    (((rInit tOK).Stop).1).Stop = (((rInit tOK).Stop).1, .ret none, []) :=
  stop_idempotent (rInit tOK) rfl

/-- C8: teardown on a receiver that was never activated returns success,
attempts no reader close, closes the teardown gate, and changes no other
field (the model's `Stop` is a total function: the only wait in the
source `Stop` is the lock, so the call never blocks). -/
theorem stop_before_receive (r : RTPReceiver) (h : r.received = false) :
    (r.Stop).2.1 = .ret none ∧ (r.Stop).2.2 = [] ∧
    (r.Stop).1.closed = true ∧
    (r.Stop).1.track = r.track ∧
    (r.Stop).1.rtpReadStream = r.rtpReadStream ∧
    (r.Stop).1.rtcpReadStream = r.rtcpReadStream ∧
    (r.Stop).1.received = false := by
  unfold RTPReceiver.Stop
  by_cases hc : r.closed <;> simp [hc, h]

/-- Witness for C8 at a concrete fresh receiver. -/
theorem stop_before_receive_witness :
    ((rInit tOK).Stop).2.1 = .ret none ∧ ((rInit tOK).Stop).2.2 = [] ∧
    ((rInit tOK).Stop).1.closed = true ∧
    ((rInit tOK).Stop).1.track = (rInit tOK).track ∧
    ((rInit tOK).Stop).1.rtpReadStream = (rInit tOK).rtpReadStream ∧
    ((rInit tOK).Stop).1.rtcpReadStream = (rInit tOK).rtcpReadStream ∧
    ((rInit tOK).Stop).1.received = false :=
  stop_before_receive (rInit tOK) rfl

/-- C9: after a first `Receive` call that returned an error (session
acquisition or stream opening failed), `Track` returns the handle that
was constructed before the failing step — carrying the receiver's kind,
the SSRC from the parameters, and the back-reference to the receiver —
not absent. -/
theorem track_set_on_failed_receive (r : RTPReceiver) (p : RTPReceiveParameters)
    (h1 : r.received = false) (_h2 : ((r.Receive p).2).isSome = true) :
    ((r.Receive p).1).Track =
      some { kind := r.kind, ssrc := p.encodings.SSRC, receiver := r.id } := by
  simp only [RTPReceiver.Receive, h1, Bool.false_eq_true, if_false]
  split
  · rfl
  · split
    · rfl
    · split
      · rfl
      · split <;> rfl

/-- Witness for C9: a receiver whose transport cannot produce a session
still carries the full handle after the failed activation. -/
theorem track_set_on_failed_receive_witness :
    (((rInit tNoSession).Receive pEx).1).Track =
      some { kind := RTPCodecType.audio, ssrc := 12345, receiver := 0 } :=
  track_set_on_failed_receive (rInit tNoSession) pEx rfl rfl

/-- C10: no `Stop` call — successful, failed or repeated — ever changes
the value returned by `Track`. -/
theorem stop_preserves_track (r : RTPReceiver) :
    ((r.Stop).1).Track = r.Track :=
  (Stop_fields r).2.2.1

/-- C3 counterexample: after a `Receive` call whose session acquisition
failed — reachable from `NewRTPReceiver` in one step — the track is
present while both readers are absent, so the three are not
"all absent or all present". -/
theorem handle_without_readers_cex :
    NewRTPReceiver 0 .audio (some tNoSession) = .ok (rInit tNoSession) ∧
    ((rInit tNoSession).Receive pEx).1.received = true ∧
    ((rInit tNoSession).Receive pEx).1.track.isSome = true ∧
    ((rInit tNoSession).Receive pEx).1.rtpReadStream.isSome = false ∧
    ((rInit tNoSession).Receive pEx).1.rtcpReadStream.isSome = false :=
  ⟨rfl, rfl, rfl, rfl, rfl⟩

/-- C3 (amended): in every reachable state the two readers are either
both absent or both present, a receiver whose activation gate is open
has track and readers all absent, and readers are only present with the
track present and the gate closed; but the track may be present without
the readers (after a failed activation), and only a *successful*
activation makes all three present. -/
theorem handle_readers_invariant (r : RTPReceiver) (h : Reachable r) :
    (r.rtpReadStream.isSome ↔ r.rtcpReadStream.isSome) ∧
    (r.received = false →
      r.track = none ∧ r.rtpReadStream = none ∧ r.rtcpReadStream = none) ∧
    (r.rtpReadStream.isSome = true → r.track.isSome = true ∧ r.received = true) := by
  induction h with
  | init id kind t r0 heq =>
      simp only [NewRTPReceiver] at heq
      injection heq with heq
      subst heq
      simp
  | recv r0 p hR ih =>
      by_cases hr : r0.received
      · rw [Receive_of_received r0 p hr]
        exact ih
      · have hrf : r0.received = false := by simpa using hr
        obtain ⟨htr, hrtp, hrtcp⟩ := ih.2.1 hrf
        simp only [RTPReceiver.Receive, hrf, Bool.false_eq_true, if_false]
        split
        · simp [hrtp, hrtcp]
        · split
          · simp [hrtp, hrtcp]
          · split
            · simp [hrtp, hrtcp]
            · split
              · simp [hrtp, hrtcp]
              · simp
  | stop r0 hR ih =>
      obtain ⟨-, -, h3, h4, h5, h6⟩ := Stop_fields r0
      rw [h3, h4, h5, h6]
      exact ih

/-- Witness for amended C3 at a concrete successfully activated
receiver, reachable in two steps. -/
theorem handle_readers_invariant_witness :
    (rActOK.rtpReadStream.isSome ↔ rActOK.rtcpReadStream.isSome) ∧
    (rActOK.received = false →
      rActOK.track = none ∧ rActOK.rtpReadStream = none ∧ rActOK.rtcpReadStream = none) ∧
    (rActOK.rtpReadStream.isSome = true →
      rActOK.track.isSome = true ∧ rActOK.received = true) :=
  handle_readers_invariant rActOK
    (Reachable.recv (rInit tOK) pEx (Reachable.init 0 .audio tOK (rInit tOK) rfl))

/-- C4 counterexample: on a receiver whose activation *failed* (the
activation signal has fired, teardown has not) there is no underlying
reader, and both read paths hit a nil reader instead of returning a
reader's byte count and error. -/
theorem read_nil_reader_cex :
    ((rInit tNoSession).Receive pEx).1.received = true ∧
    ((rInit tNoSession).Receive pEx).1.closed = false ∧
    (((rInit tNoSession).Receive pEx).1).Read [] .closedFirst = .nilDeref ∧
    (((rInit tNoSession).Receive pEx).1).readRTP [] .closedFirst = .nilDeref :=
  ⟨rfl, rfl, rfl, rfl⟩

/-- C4 (amended): if the teardown signal has fired and the activation
signal has not, both read paths fail with the `Stopped` error and zero
bytes; if the activation signal has fired through an activation that
created the readers and teardown has not fired, each read path delegates
to its underlying lossy reader and returns exactly that reader's byte
count and error. -/
theorem read_gate_contract (r : RTPReceiver) (b : List Nat) (c : SelectChoice) :
    (r.closed = true → r.received = false →
      r.Read b c = .result 0 (some .senderStopped) ∧
      r.readRTP b c = .result 0 (some .senderStopped)) ∧
    (r.received = true → r.closed = false →
      (∀ s, r.rtcpReadStream = some s →
        r.Read b c = .result (s.read b).1 (s.read b).2) ∧
      (∀ s, r.rtpReadStream = some s →
        r.readRTP b c = .result (s.read b).1 (s.read b).2)) := by
  constructor
  · intro hc hr
    simp [RTPReceiver.Read, RTPReceiver.readRTP, hc, hr]
  · intro hr hc
    constructor
    · intro s hs
      simp [RTPReceiver.Read, hc, hr, delegateRead, hs]
    · intro s hs
      simp [RTPReceiver.readRTP, hc, hr, delegateRead, hs]

/-- Witness for amended C4: the stopped arm on a torn-down fresh
receiver, and the delegation arm on a successfully activated one. -/
theorem read_gate_contract_witness :
    ((rInit tOK).Stop).1.Read [1, 2] .closedFirst = .result 0 (some .senderStopped) ∧
    rActOK.Read [1, 2] .closedFirst = .result 2 none ∧
    rActOK.readRTP [1, 2] .closedFirst = .result 2 none := by
  refine ⟨?_, ?_, ?_⟩
  · exact ((read_gate_contract ((rInit tOK).Stop).1 [1, 2] .closedFirst).1 rfl rfl).1
  · exact ((read_gate_contract rActOK [1, 2] .closedFirst).2 rfl rfl).1
      (newLossyReadCloser streamOK) rfl
  · exact ((read_gate_contract rActOK [1, 2] .closedFirst).2 rfl rfl).2
      (newLossyReadCloser streamOK) rfl

/-- C5 counterexample: a receiver successfully activated and then
successfully stopped has both channels closed; the `select` may take the
`received` case, in which the read returns the closed reader's result —
not the `Stopped` error. -/
theorem read_after_stop_cex :
    (rActErr.Stop).2.1 = .ret none ∧
    ((rActErr.Stop).1).Read [] .receivedFirst = .result 0 (some (.collabErr 3)) ∧
    ((rActErr.Stop).1).Read [] .receivedFirst ≠ .result 0 (some .senderStopped) ∧
    ((rActErr.Stop).1).readRTP [] .receivedFirst = .result 0 (some (.collabErr 3)) :=
  ⟨rfl, rfl, by decide, rfl⟩

/-- C5 (amended): after a `Stop` call that returned success, every read
call returns without blocking; if the receiver was never activated the
read fails with the `Stopped` error; if it was activated, the
nondeterministic `select` either yields the `Stopped` failure (the
`closed` case) or delegates to the already-closed underlying reader (the
`received` case). -/
theorem stop_then_read (r : RTPReceiver) (h : (r.Stop).2.1 = .ret none)
    (b : List Nat) (c : SelectChoice) :
    ((r.Stop).1.Read b c ≠ .blocked ∧ (r.Stop).1.readRTP b c ≠ .blocked) ∧
    ((r.Stop).1.received = false →
      (r.Stop).1.Read b c = .result 0 (some .senderStopped) ∧
      (r.Stop).1.readRTP b c = .result 0 (some .senderStopped)) ∧
    ((r.Stop).1.Read b .closedFirst = .result 0 (some .senderStopped) ∧
     (r.Stop).1.readRTP b .closedFirst = .result 0 (some .senderStopped)) ∧
    ((r.Stop).1.received = true →
      (r.Stop).1.Read b .receivedFirst = delegateRead (r.Stop).1.rtcpReadStream b ∧
      (r.Stop).1.readRTP b .receivedFirst = delegateRead (r.Stop).1.rtpReadStream b) := by
  have hc : (r.Stop).1.closed = true := Stop_success_closed r h
  refine ⟨?_, fun hr => ?_, ?_, fun hr => ?_⟩
  · constructor <;>
    · cases hr : (r.Stop).1.received <;> cases c <;>
        simp [RTPReceiver.Read, RTPReceiver.readRTP, hc, hr, delegateRead_ne_blocked]
  · simp [RTPReceiver.Read, RTPReceiver.readRTP, hc, hr]
  · by_cases hr : (r.Stop).1.received <;>
      simp [RTPReceiver.Read, RTPReceiver.readRTP, hc, hr]
  · simp [RTPReceiver.Read, RTPReceiver.readRTP, hc, hr]

/-- Witness for amended C5 at a concrete never-activated receiver. -/
theorem stop_then_read_witness :
    ((rInit tOK).Stop).1.Read [] .closedFirst = .result 0 (some .senderStopped) ∧
    ((rInit tOK).Stop).1.readRTP [] .closedFirst = .result 0 (some .senderStopped) :=
  (stop_then_read (rInit tOK) rfl [] .closedFirst).2.2.1

/-- C7 counterexample: on an activated receiver whose control reader
fails to close, `Stop` returns that error and leaves the teardown gate
open — but it never attempts the media close (the call trace is only
`[rtcp]`), contradicting "attempting both closes". -/
theorem stop_skips_second_close_cex :
    rCF.received = true ∧
    rCF.rtpReadStream.isSome = true ∧
    rCF.Stop = (rCF, .ret (some (.collabErr 5)), [CloseCall.rtcp]) ∧
    (rCF.Stop).1.closed = false :=
  ⟨rfl, rfl, rfl, rfl⟩

/-- C7 (amended): teardown on an activated, not yet stopped receiver
with both readers present closes the control (RTCP) reader first; if
that close fails it returns the error at once, *without* attempting the
media close, and leaves the teardown gate open; otherwise it closes the
media (RTP) reader, again returning a failure with the gate left open;
only when both closes succeed does it close the teardown gate. -/
theorem stop_close_order (r : RTPReceiver) (cc mc : lossyReadCloser)
    (h1 : r.closed = false) (h2 : r.received = true)
    (hcc : r.rtcpReadStream = some cc) (hmc : r.rtpReadStream = some mc) :
    (∀ e, cc.closeErr = some e →
      r.Stop = (r, .ret (some e), [CloseCall.rtcp])) ∧
    (∀ e, cc.closeErr = none → mc.closeErr = some e →
      r.Stop = (r, .ret (some e), [CloseCall.rtcp, CloseCall.rtp])) ∧
    (cc.closeErr = none → mc.closeErr = none →
      r.Stop = ({ r with closed := true }, .ret none,
                [CloseCall.rtcp, CloseCall.rtp])) := by
  refine ⟨fun e he => ?_, fun e hce hme => ?_, fun hce hme => ?_⟩
  · simp [RTPReceiver.Stop, h1, h2, hcc, he]
  · simp [RTPReceiver.Stop, h1, h2, hcc, hmc, hce, hme]
  · simp [RTPReceiver.Stop, h1, h2, hcc, hmc, hce, hme]

/-- Witness for amended C7: both closes succeed on `rActOK`, in order
control then media, and the teardown gate closes. -/
theorem stop_close_order_witness :
    rActOK.Stop = ({ rActOK with closed := true }, .ret none,
                   [CloseCall.rtcp, CloseCall.rtp]) :=
  (stop_close_order rActOK (newLossyReadCloser streamOK) (newLossyReadCloser streamOK)
    rfl rfl rfl rfl).2.2 rfl rfl

end Webrtc
